import Mathlib

/-!
Verification of the Asylo call-marshaling and dispatch substrate.

The embedding follows the repository sources:
  asylo/platform/primitives/primitives.h          (selector constants)
  asylo/platform/primitives/trusted_runtime.h     (boundary validators, layout)
  asylo/platform/host_call/test/test_enclave.cc   (entry handlers)
  asylo/platform/posix/io/native_paths.cc         (Writev/Readv)
  asylo/platform/primitives/examples/hello_driver.cc (exit-handler registration)
Components whose implementation files are not part of the source tree
(ParameterStack, Client, DispatchTable/registry, BestEffortAbort and the
argument-count macros) are modelled from the specification, as marked on
each definition.
-/

namespace Asylo

/-- A raw byte buffer: the contents of one ParameterStack entry.  The C++
code copies bytes verbatim; we represent each byte as a `Nat`. -/
abbrev Bytes := List Nat

/-- Modelled from the spec: the error taxonomy of stack misuse (section 7):
`Underflow` for popping an empty stack, `SizeMismatch` for a typed pop whose
entry length differs from the expected width. -/
inductive StackError where
  | underflow
  | sizeMismatch
deriving DecidableEq

/-- Error space of `PrimitiveStatus` (from primitive_status.h usage in
test_enclave.cc: `OkStatus()` and `{error::GoogleError::INVALID_ARGUMENT, msg}`). -/
inductive ErrorCode where
  | ok
  | invalidArgument
deriving DecidableEq

/-- A `PrimitiveStatus` carries an error code plus a human-readable message,
as returned by every entry handler in test_enclave.cc. -/
structure PrimitiveStatus where
  code : ErrorCode
  message : String
deriving DecidableEq

def PrimitiveStatus.OkStatus : PrimitiveStatus := ⟨ErrorCode.ok, ""⟩

def invalidArgumentStatus (msg : String) : PrimitiveStatus :=
  ⟨ErrorCode.invalidArgument, msg⟩

/-- Modelled from the spec: ParameterStack (section 4.1) — the implementation
header `asylo/platform/primitives/parameter_stack.h` is not part of the given
source tree.  An ordered LIFO sequence of owned variable-length byte buffers;
the head of `entries` is the most recently pushed entry (top of stack). -/
structure ParameterStack where
  entries : List Bytes
deriving DecidableEq

def ParameterStack.emptyStack : ParameterStack := ⟨[]⟩

/-- Modelled from the spec: `push_by_copy(extent)` duplicates the bytes into
storage owned by the stack and appends the new entry at the top. -/
def ParameterStack.PushByCopy (s : ParameterStack) (v : Bytes) : ParameterStack :=
  ⟨v :: s.entries⟩

/-- `size()`: number of entries currently held. -/
def ParameterStack.size (s : ParameterStack) : Nat := s.entries.length

/-- Modelled from the spec: `pop()` removes and returns the most recently
pushed entry; fails with `Underflow` when the stack is empty (never reads
past the stack end). -/
def ParameterStack.Pop (s : ParameterStack) :
    Except StackError (Bytes × ParameterStack) :=
  match s.entries with
  | [] => Except.error StackError.underflow
  | e :: rest => Except.ok (e, ⟨rest⟩)

/-- Modelled from the spec: the typed accessor `pop<T>()` additionally fails
with `SizeMismatch` when the popped entry length differs from `sizeof(T)`.
`w` is the byte width of `T`. -/
def ParameterStack.PopTyped (s : ParameterStack) (w : Nat) :
    Except StackError (Bytes × ParameterStack) :=
  match s.entries with
  | [] => Except.error StackError.underflow
  | e :: rest =>
      if e.length = w then Except.ok (e, ⟨rest⟩)
      else Except.error StackError.sizeMismatch

/-- Push a whole sequence of values `v1..vn` in order (`v1` first). -/
def ParameterStack.PushAll (s : ParameterStack) (vs : List Bytes) : ParameterStack :=
  vs.foldl ParameterStack.PushByCopy s

/-- Pop `n` entries in order, collecting them first-popped-first. -/
def ParameterStack.PopN (s : ParameterStack) :
    Nat → Except StackError (List Bytes × ParameterStack)
  | 0 => Except.ok ([], s)
  | n + 1 =>
      match s.Pop with
      | Except.error e => Except.error e
      | Except.ok (v, s1) =>
          match s1.PopN n with
          | Except.error e => Except.error e
          | Except.ok (vs, s2) => Except.ok (v :: vs, s2)

/-! ### Byte widths of the C types appearing in the handlers (x86-64 LP64). -/

def sizeofInt : Nat := 4
def sizeofModeT : Nat := 4
def sizeofSizeT : Nat := 8
def sizeofSsizeT : Nat := 8

/-- Little-endian value of a byte buffer, as the x86-64 target reads a
`size_t` out of its bytes. -/
def decodeLE (bs : Bytes) : Nat :=
  bs.foldr (fun b acc => acc * 256 + b % 256) 0

/-- Little-endian encoding of a value into `w` bytes. -/
def encodeLE : Nat → Nat → Bytes
  | 0, _ => []
  | w + 1, v => v % 256 :: encodeLE w (v / 256)

/-! ### Call selector constants, from asylo/platform/primitives/primitives.h -/

/-- Invalid entry point selector. -/
def kSelectorAsyloInvalid : Nat := 0

/-- Enclave initialization entry point selector. -/
def kSelectorAsyloInit : Nat := 1

/-- Enclave run entry point selector. -/
def kSelectorAsyloRun : Nat := 2

/-- Enclave enter and donate thread entry point selector. -/
def kSelectorAsyloDonateThread : Nat := 3

/-- Enclave finalization entry point selector. -/
def kSelectorAsyloFini : Nat := 4

/-- Selector values less than `kSelectorUser` are reserved by the runtime and
may not be registered by the applications (primitives.h). -/
def kSelectorUser : Nat := 128

/-- Start of the sub-range reserved for untrusted host call handlers
(primitives.h). -/
def kSelectorHostCall : Nat := 112

/-- Whether a selector is reserved by the runtime, per the primitives.h
comment: selector values less than `kSelectorUser` are reserved and may not
be registered by applications. -/
def selectorReservedForRuntime (s : Nat) : Bool := s < kSelectorUser

/-! ### Guard macros of the test enclave handlers.

The macro bodies are not part of the given source tree; they are modelled
from the spec (section 4.2: a documented argument-count helper used uniformly
by handlers, failing with `InvalidArgument`).  `ASYLO_RETURN_IF_STACK_EMPTY`
passes exactly when the stack carries no arguments, as fixed by the
host_call_test.cc tests that call the zero-argument handlers (for example
`TestGetpid`) on an empty `NativeParameterStack` and expect success. -/

/-- Modelled from the spec: `ASYLO_RETURN_IF_INCORRECT_ARGUMENTS(params, n)`
returns `InvalidArgument` from the handler unless `params->size() == n`. -/
def incorrectArguments (params : ParameterStack) (count : Nat) : Bool :=
  params.size ≠ count

def incorrectArgumentsStatus : PrimitiveStatus :=
  invalidArgumentStatus "Incorrect number of arguments on the parameter stack."

/-- Modelled from the spec: `ASYLO_RETURN_IF_STACK_EMPTY(params)` returns
`InvalidArgument` from the handler unless the stack holds no arguments. -/
def stackNotEmptyGuardFails (params : ParameterStack) : Bool :=
  params.size ≠ 0

def unexpectedArgumentsStatus : PrimitiveStatus :=
  invalidArgumentStatus "Received unexpected arguments on the parameter stack."

/-! ### Entry handlers, translated from
asylo/platform/host_call/test/test_enclave.cc.

Host calls made by the handlers (`enc_untrusted_access`,
`enc_untrusted_open`, `enc_untrusted_read`) are external collaborators; each
handler takes them as an oracle argument.  The oracle works on the raw entry
bytes and returns the bytes of the pushed result, mirroring the untyped wire
format with typed call sites. -/

/-- `TestAccess` (test_enclave.cc): requires exactly 2 arguments, pops the
mode (an `int`) first and the path second, pushes the `int` result of
`enc_untrusted_access(path_name, mode)`. -/
def TestAccess (access : Bytes → Bytes → Bytes) (params : ParameterStack) :
    Except StackError (PrimitiveStatus × ParameterStack) :=
  if incorrectArguments params 2 then
    Except.ok (incorrectArgumentsStatus, params)
  else
    match params.PopTyped sizeofInt with
    | Except.error e => Except.error e
    | Except.ok (mode, params) =>
        match params.Pop with
        | Except.error e => Except.error e
        | Except.ok (path_name, params) =>
            Except.ok (PrimitiveStatus.OkStatus,
                       params.PushByCopy (access path_name mode))

/-- `TestOpen` (test_enclave.cc): open() can assume 2 or 3 arguments; with 3
it pops mode, flags, pathname and calls `enc_untrusted_open(pathname, flags,
mode)`; with 2 it pops flags, pathname and calls `enc_untrusted_open(pathname,
flags)`; otherwise it returns `INVALID_ARGUMENT` without touching the stack. -/
def TestOpen (open3 : Bytes → Bytes → Bytes → Bytes)
    (open2 : Bytes → Bytes → Bytes) (params : ParameterStack) :
    Except StackError (PrimitiveStatus × ParameterStack) :=
  if params.size = 3 then
    match params.PopTyped sizeofModeT with
    | Except.error e => Except.error e
    | Except.ok (mode, params) =>
        match params.PopTyped sizeofInt with
        | Except.error e => Except.error e
        | Except.ok (flags, params) =>
            match params.Pop with
            | Except.error e => Except.error e
            | Except.ok (pathname, params) =>
                Except.ok (PrimitiveStatus.OkStatus,
                           params.PushByCopy (open3 pathname flags mode))
  else if params.size = 2 then
    match params.PopTyped sizeofInt with
    | Except.error e => Except.error e
    | Except.ok (flags, params) =>
        match params.Pop with
        | Except.error e => Except.error e
        | Except.ok (pathname, params) =>
            Except.ok (PrimitiveStatus.OkStatus,
                       params.PushByCopy (open2 pathname flags))
  else
    Except.ok (invalidArgumentStatus
        "Unexpected number of arguments. open() expects 2 or 3 arguments.",
      params)

/-- Length of the local buffer `char read_buf[20]` in `TestRead`. -/
def readBufLen : Nat := 20

/-- Prefix of a buffer up to (excluding) the first NUL byte: the bytes
`strlen` measures. -/
def untilNul : Bytes → Bytes
  | [] => []
  | b :: bs => if b = 0 then [] else b :: untilNul bs

/-- `TestRead` (test_enclave.cc): requires exactly 2 arguments, pops the
count (a `size_t`) then the fd (an `int`), declares `char read_buf[20]`, and
calls `enc_untrusted_read(fd, read_buf, count)` with the caller-supplied
count.  The host read writes `r = min(count, hostData.length)` bytes into
`read_buf` starting at its base; `hostData` models the bytes the host
delivers.  The handler then pushes the `ssize_t` result and the
NUL-terminated buffer contents (`strlen(read_buf) + 1` bytes).  The third
component of the result is the write log: the `read_buf` indices the host
read wrote to (indices `≥ readBufLen` are outside the buffer). -/
def TestRead (hostData : Bytes) (params : ParameterStack) :
    Except StackError (PrimitiveStatus × ParameterStack × List Nat) :=
  if incorrectArguments params 2 then
    Except.ok (incorrectArgumentsStatus, params, [])
  else
    match params.PopTyped sizeofSizeT with
    | Except.error e => Except.error e
    | Except.ok (count, params) =>
        match params.PopTyped sizeofInt with
        | Except.error e => Except.error e
        | Except.ok (_fd, params) =>
            let r := min (decodeLE count) hostData.length
            let read_buf := hostData.take r
            let params := params.PushByCopy (encodeLE sizeofSsizeT r)
            let params := params.PushByCopy (untilNul read_buf ++ [0])
            Except.ok (PrimitiveStatus.OkStatus, params, List.range r)

/-! ### The Abort handler and best-effort enclave termination. -/

/-- Outcome of invoking an entry point: either control returns to the caller
with an ordinary status and result stack, or the enclave is terminated. -/
inductive CallOutcome where
  | returned (status : PrimitiveStatus) (params : ParameterStack)
  | aborted (message : String)
deriving DecidableEq

/-- Modelled from the spec: `TrustedPrimitives::BestEffortAbort` terminates
the enclave rather than returning to the caller (sections 4.2 and 7). -/
def BestEffortAbort (message : String) : CallOutcome :=
  CallOutcome.aborted message

/-- `Abort` (test_enclave.cc): message handler that aborts the enclave.  It
first runs `ASYLO_RETURN_IF_STACK_EMPTY(params)` — returning an ordinary
`InvalidArgument` status when arguments are present — and otherwise calls
`TrustedPrimitives::BestEffortAbort("Aborting enclave")`. -/
def Abort (params : ParameterStack) : CallOutcome :=
  if stackNotEmptyGuardFails params then
    CallOutcome.returned unexpectedArgumentsStatus params
  else
    BestEffortAbort "Aborting enclave"

/-! ### Handler registry and Client.

The `DispatchTable` / exit-call-provider implementation and the untrusted
`Client` are not part of the given source tree (only their callers,
host_call_test.cc and hello_driver.cc, are); both are modelled from the spec
(sections 4.2 and 4.3). -/

/-- A registered callback: mutates the stack and yields a status
(`callback(context, stack) -> status`). -/
abbrev Handler := ParameterStack → Except StackError (PrimitiveStatus × ParameterStack)

/-- Registration and call errors of the spec error taxonomy (section 7). -/
inductive CallError where
  | AlreadyRegistered
  | NotFound
  | Closed
deriving DecidableEq

/-- Modelled from the spec: a registry mapping a call selector to a callback
(one per side: entry-handler table / exit-call provider). -/
structure DispatchTable where
  entries : List (Nat × Handler)

def DispatchTable.emptyTable : DispatchTable := ⟨[]⟩

/-- The handler currently bound to a selector, if any. -/
def DispatchTable.FindHandler (t : DispatchTable) (selector : Nat) : Option Handler :=
  t.entries.lookup selector

/-- Modelled from the spec: `register(selector, handler)` fails with
`AlreadyRegistered` when the selector is already bound, leaving the earlier
binding in place; otherwise it binds the selector. -/
def DispatchTable.RegisterHandler (t : DispatchTable) (selector : Nat)
    (handler : Handler) : Except CallError DispatchTable :=
  if (t.FindHandler selector).isSome then
    Except.error CallError.AlreadyRegistered
  else
    Except.ok ⟨(selector, handler) :: t.entries⟩

/-- Modelled from the spec: `dispatch(selector, stack)` looks the selector up
— `NotFound` when absent — and on a match invokes the registered handler. -/
def DispatchTable.Dispatch (t : DispatchTable) (selector : Nat)
    (params : ParameterStack) :
    Except CallError (Except StackError (PrimitiveStatus × ParameterStack)) :=
  match t.FindHandler selector with
  | none => Except.error CallError.NotFound
  | some handler => Except.ok (handler params)

/-- Modelled from the spec: the host-side handle to a loaded enclave
instance; it owns the entry-point registry reachable through `EnclaveCall`
and tracks the lifecycle state (`Loaded → Closed`, terminal). -/
structure Client where
  handlers : DispatchTable
  closed : Bool

/-- `IsClosed()`: pure query of the lifecycle state; never fails. -/
def Client.IsClosed (c : Client) : Bool := c.closed

/-- Modelled from the spec: `Destroy()` transitions the client to `Closed`;
a second call observes the `Closed` state and is a no-op beyond
re-confirming it. -/
def Client.Destroy (c : Client) : Client := { c with closed := true }

/-- Modelled from the spec: `EnclaveCall(selector, stack)` fails immediately
with `Closed` on a destroyed client and otherwise dispatches to the enclave
entry point registered for the selector. -/
def Client.EnclaveCall (c : Client) (selector : Nat) (params : ParameterStack) :
    Except CallError (Except StackError (PrimitiveStatus × ParameterStack)) :=
  if c.closed then Except.error CallError.Closed
  else c.handlers.Dispatch selector params

/-! ### Boundary memory validators.

`enc_is_within_enclave` / `enc_is_outside_enclave` are declared in
asylo/platform/primitives/trusted_runtime.h; their implementation is backend
code not part of the given source tree.  Modelled from the spec (section
4.4): pure predicates over the read-only `MemoryLayout` snapshot, here the
enclave address region recorded at load time. -/

/-- Modelled from the spec: the enclave address region of the `MemoryLayout`
snapshot — a base/size pair computed once at load time and read-only
thereafter. -/
structure MemoryLayout where
  enclave_base : Nat
  enclave_size : Nat
deriving DecidableEq

/-- A single address lies in the enclave region. -/
def MemoryLayout.containsAddr (m : MemoryLayout) (x : Nat) : Prop :=
  m.enclave_base ≤ x ∧ x < m.enclave_base + m.enclave_size

instance (m : MemoryLayout) (x : Nat) : Decidable (m.containsAddr x) := by
  unfold MemoryLayout.containsAddr; infer_instance

/-- Modelled from the spec: validates that the address range
`[address, address + size)` is fully contained within the enclave. -/
def enc_is_within_enclave (m : MemoryLayout) (address size : Nat) : Bool :=
  m.enclave_base ≤ address &&
    address + size ≤ m.enclave_base + m.enclave_size

/-- Modelled from the spec: validates that the address range
`[address, address + size)` is fully contained outside of the enclave. -/
def enc_is_outside_enclave (m : MemoryLayout) (address size : Nat) : Bool :=
  address + size ≤ m.enclave_base ||
    m.enclave_base + m.enclave_size ≤ address

/-! ### IOContextNative::Writev / Readv, from
asylo/platform/posix/io/native_paths.cc.

The untrusted-memory pool (`UntrustedCacheMalloc::Instance()->Malloc`) and
the host calls `enc_untrusted_writev` / `enc_untrusted_readv` are external
collaborators, taken as oracles.  Each operation records the side effects it
performs in an event trace, so that "no host call was issued and no
untrusted buffer was allocated" is the trace being empty. -/

/-- The observable side effects of `Writev`/`Readv`: allocating an untrusted
buffer from the pool, or issuing a host call. -/
inductive IOEvent where
  | untrustedAlloc (size : Nat)
  | hostCall (name : String)
deriving DecidableEq

/-- An `iovec`: a length and the bytes at `iov_base`. -/
structure Iovec where
  iov_len : Nat
  iov_base : Bytes
deriving DecidableEq

def EINVAL : Nat := 22

/-- `total_size`: the sum of `iov[i].iov_len` for `0 <= i < iovcnt`
(`CreateUntrustedBuffer`, native_paths.cc). -/
def iovTotalSize (iov : List Iovec) (iovcnt : Nat) : Nat :=
  ((iov.take iovcnt).map Iovec.iov_len).sum

/-- `IOContextNative::CreateUntrustedBuffer` (native_paths.cc): sums the iovec
lengths and allocates a buffer of that size from the untrusted memory pool,
failing (returning `none`) when the pool returns null. -/
def CreateUntrustedBuffer (malloc : Nat → Option Bytes) (iov : List Iovec)
    (iovcnt : Nat) : Option Bytes × List IOEvent :=
  let total_size := iovTotalSize iov iovcnt
  match malloc total_size with
  | none => (none, [])
  | some buf => (some buf, [IOEvent.untrustedAlloc total_size])

/-- `IOContextNative::SerializeIov` (native_paths.cc): allocates an untrusted
buffer and copies the iovec contents into it back to back. -/
def SerializeIov (malloc : Nat → Option Bytes) (iov : List Iovec)
    (iovcnt : Nat) : Option Bytes × List IOEvent :=
  match CreateUntrustedBuffer malloc iov iovcnt with
  | (none, events) => (none, events)
  | (some _, events) =>
      (some (((iov.take iovcnt).map Iovec.iov_base).flatten), events)

/-- Result of `Writev`/`Readv`: the `ssize_t` return value, the `errno`
value this function itself set (if any), and the event trace. -/
structure IOResult where
  ret : Int
  errnoSet : Option Nat
  events : List IOEvent
deriving DecidableEq

/-- `IOContextNative::Writev` (native_paths.cc): for `iovcnt <= 0` it sets
`errno = EINVAL` and returns `-1` before any allocation or host call;
otherwise it serializes the iovecs into an untrusted buffer (returning `-1`
on allocation failure) and issues the `writev` host call. -/
def Writev (malloc : Nat → Option Bytes) (writevHost : Bytes → Nat → Int)
    (iov : List Iovec) (iovcnt : Int) : IOResult :=
  if iovcnt ≤ 0 then
    ⟨-1, some EINVAL, []⟩
  else
    match SerializeIov malloc iov iovcnt.toNat with
    | (none, events) => ⟨-1, none, events⟩
    | (some buf, events) =>
        ⟨writevHost buf buf.length, none,
         events ++ [IOEvent.hostCall "writev"]⟩

/-- `IOContextNative::Readv` (native_paths.cc): for `iovcnt <= 0` it sets
`errno = EINVAL` and returns `-1` before any allocation or host call;
otherwise it allocates an untrusted buffer (returning `-1` on allocation
failure) and issues the `readv` host call. -/
def Readv (malloc : Nat → Option Bytes) (readvHost : List Iovec → Nat → Int)
    (iov : List Iovec) (iovcnt : Int) : IOResult :=
  if iovcnt ≤ 0 then
    ⟨-1, some EINVAL, []⟩
  else
    match CreateUntrustedBuffer malloc iov iovcnt.toNat with
    | (none, events) => ⟨-1, none, events⟩
    | (some buf, events) =>
        ⟨readvHost iov buf.length, none,
         events ++ [IOEvent.hostCall "readv"]⟩

/-! ## Helper lemmas -/

theorem pushAll_entries (s : ParameterStack) (vs : List Bytes) :
    (s.PushAll vs).entries = vs.reverse ++ s.entries := by
  induction vs generalizing s with
  | nil => simp [ParameterStack.PushAll]
  | cons v vs ih =>
      show (ParameterStack.PushAll (s.PushByCopy v) vs).entries = _
      rw [ih]
      simp [ParameterStack.PushByCopy]

theorem popN_of_prefix (pre rest : List Bytes) :
    ParameterStack.PopN ⟨pre ++ rest⟩ pre.length = Except.ok (pre, ⟨rest⟩) := by
  induction pre with
  | nil => simp [ParameterStack.PopN]
  | cons e pre ih =>
      simp [ParameterStack.PopN, ParameterStack.Pop, ih]

theorem popN_underflow_of_short (s : ParameterStack) (n : Nat)
    (h : s.size < n) : s.PopN n = Except.error StackError.underflow := by
  induction n generalizing s with
  | zero => omega
  | succ n ih =>
      rcases s with ⟨(_ | ⟨e, rest⟩)⟩
      · simp [ParameterStack.PopN, ParameterStack.Pop]
      · have hrest : ParameterStack.size ⟨rest⟩ < n := by
          simpa [ParameterStack.size] using h
        simp [ParameterStack.PopN, ParameterStack.Pop, ih ⟨rest⟩ hrest]

/-! ## Claims -/

/-- C1: pushing values `v1..vn` onto a ParameterStack via `PushByCopy` and
popping `n` times yields the values in reverse order `vn..v1`, byte-for-byte
identical to the bytes pushed; and the `TestAccess` handler, given a stack
built by pushing the path and then the mode, pops the mode first and the
path second and hands them to `enc_untrusted_access(path, mode)`. -/
theorem parameterStack_lifo_roundtrip :
    (∀ (s : ParameterStack) (vs : List Bytes),
        (s.PushAll vs).PopN vs.length = Except.ok (vs.reverse, s)) ∧
    (∀ (access : Bytes → Bytes → Bytes) (path mode : Bytes),
        mode.length = sizeofInt →
        TestAccess access
            ((ParameterStack.emptyStack.PushByCopy path).PushByCopy mode)
          = Except.ok (PrimitiveStatus.OkStatus,
              ParameterStack.emptyStack.PushByCopy (access path mode))) := by
  constructor
  · intro s vs
    have h1 : s.PushAll vs = ⟨vs.reverse ++ s.entries⟩ := by
      cases s; exact congrArg ParameterStack.mk (pushAll_entries _ _)
    have h2 := popN_of_prefix vs.reverse s.entries
    rw [h1]
    rw [List.length_reverse] at h2
    rw [h2]
  · intro access path mode hmode
    simp [TestAccess, incorrectArguments, ParameterStack.size,
      ParameterStack.PushByCopy, ParameterStack.emptyStack,
      ParameterStack.PopTyped, ParameterStack.Pop, hmode]

/-- Witness for C1 at concrete inputs. -/
theorem parameterStack_lifo_roundtrip_witness :
    (ParameterStack.emptyStack.PushAll [[1], [2, 3], [4, 5, 6]]).PopN 3
      = Except.ok ([[4, 5, 6], [2, 3], [1]], ParameterStack.emptyStack) ∧
    TestAccess (fun p m => p ++ m)
        ((ParameterStack.emptyStack.PushByCopy [47, 116]).PushByCopy [0, 0, 0, 0])
      = Except.ok (PrimitiveStatus.OkStatus,
          ParameterStack.emptyStack.PushByCopy [47, 116, 0, 0, 0, 0]) :=
  ⟨parameterStack_lifo_roundtrip.1 ParameterStack.emptyStack [[1], [2, 3], [4, 5, 6]],
   parameterStack_lifo_roundtrip.2 (fun p m => p ++ m) [47, 116] [0, 0, 0, 0]
     (by decide)⟩

/-- C2: after `Destroy()`, every subsequent `EnclaveCall` fails with the
`Closed` error, `IsClosed()` returns true, and a second `Destroy()` is
idempotent, leaving the client in the same `Closed` state. -/
theorem client_closed_semantics (c : Client) (selector : Nat)
    (params : ParameterStack) :
    c.Destroy.EnclaveCall selector params = Except.error CallError.Closed ∧
    c.Destroy.IsClosed = true ∧
    c.Destroy.Destroy = c.Destroy := by
  exact ⟨rfl, rfl, rfl⟩

/-- C3: the first registration of a free selector succeeds; a second
registration of the same selector on the same registry fails with
`AlreadyRegistered` while the first handler remains bound and dispatchable;
the earlier registration is never overwritten. -/
theorem registry_no_overwrite (t : DispatchTable) (selector : Nat)
    (h1 h2 : Handler) (params : ParameterStack)
    (hfree : t.FindHandler selector = none) :
    t.RegisterHandler selector h1 = Except.ok ⟨(selector, h1) :: t.entries⟩ ∧
    DispatchTable.RegisterHandler ⟨(selector, h1) :: t.entries⟩ selector h2
      = Except.error CallError.AlreadyRegistered ∧
    DispatchTable.FindHandler ⟨(selector, h1) :: t.entries⟩ selector = some h1 ∧
    DispatchTable.Dispatch ⟨(selector, h1) :: t.entries⟩ selector params
      = Except.ok (h1 params) := by
  refine ⟨?_, ?_, ?_, ?_⟩
  · simp [DispatchTable.RegisterHandler, hfree]
  · simp [DispatchTable.RegisterHandler, DispatchTable.FindHandler, List.lookup]
  · simp [DispatchTable.FindHandler, List.lookup]
  · simp [DispatchTable.Dispatch, DispatchTable.FindHandler, List.lookup]

/-- Witness for C3: registering selector 200 twice on an initially empty
registry. -/
theorem registry_no_overwrite_witness :
    DispatchTable.RegisterHandler DispatchTable.emptyTable 200
        (fun p => Except.ok (PrimitiveStatus.OkStatus, p))
      = Except.ok ⟨[(200, fun p => Except.ok (PrimitiveStatus.OkStatus, p))]⟩ ∧
    DispatchTable.RegisterHandler
        ⟨[(200, fun p => Except.ok (PrimitiveStatus.OkStatus, p))]⟩ 200
        (fun p => Except.ok (PrimitiveStatus.OkStatus, p.PushByCopy []))
      = Except.error CallError.AlreadyRegistered ∧
    DispatchTable.FindHandler
        ⟨[(200, fun p => Except.ok (PrimitiveStatus.OkStatus, p))]⟩ 200
      = some (fun p => Except.ok (PrimitiveStatus.OkStatus, p)) ∧
    DispatchTable.Dispatch
        ⟨[(200, fun p => Except.ok (PrimitiveStatus.OkStatus, p))]⟩ 200
        ParameterStack.emptyStack
      = Except.ok ((fun p => Except.ok (PrimitiveStatus.OkStatus, p))
          ParameterStack.emptyStack) :=
  registry_no_overwrite DispatchTable.emptyTable 200
    (fun p => Except.ok (PrimitiveStatus.OkStatus, p))
    (fun p => Except.ok (PrimitiveStatus.OkStatus, p.PushByCopy []))
    ParameterStack.emptyStack rfl

/-- C4: the call-selector namespace layout: selector 0 invalid, selectors
1..4 the runtime lifecycle entry points init, run, donate-thread, fini, the
reserved host-call sub-range starting at 112 below the user range, and every
selector from `kSelectorUser = 128` upward available to applications while
all selectors below 128 are reserved by the runtime. -/
theorem selector_namespace_layout :
    kSelectorAsyloInvalid = 0 ∧ kSelectorAsyloInit = 1 ∧
    kSelectorAsyloRun = 2 ∧ kSelectorAsyloDonateThread = 3 ∧
    kSelectorAsyloFini = 4 ∧ kSelectorHostCall = 112 ∧
    kSelectorUser = 128 ∧ kSelectorHostCall < kSelectorUser ∧
    (∀ s : Nat,
        (kSelectorUser ≤ s → selectorReservedForRuntime s = false) ∧
        (s < kSelectorUser → selectorReservedForRuntime s = true)) := by
  refine ⟨rfl, rfl, rfl, rfl, rfl, rfl, rfl, by decide, ?_⟩
  intro s
  constructor
  · intro h
    simp only [selectorReservedForRuntime, decide_eq_false_iff_not]
    omega
  · intro h
    simp only [selectorReservedForRuntime, decide_eq_true_eq]
    exact h

/-- Witness for C4: selector 130 is application-usable, selector 4 is
runtime-reserved. -/
theorem selector_namespace_layout_witness :
    selectorReservedForRuntime 130 = false ∧
    selectorReservedForRuntime 4 = true :=
  ⟨(selector_namespace_layout.2.2.2.2.2.2.2.2 130).1 (by decide),
   (selector_namespace_layout.2.2.2.2.2.2.2.2 4).2 (by decide)⟩

/-- C5 counterexample: invoking the `Abort` entry point with a non-empty
parameter stack does return control to the caller as an ordinary
`InvalidArgument` status — the argument guard runs before
`BestEffortAbort`, so not every invocation terminates the enclave. -/
theorem abort_returns_status_on_nonempty_stack :
    Abort ⟨[[0]]⟩ = CallOutcome.returned unexpectedArgumentsStatus ⟨[[0]]⟩ := by
  rfl

/-- C5 (amended): every invocation of the `Abort` entry point whose
parameter stack is empty terminates the enclave via
`BestEffortAbort("Aborting enclave")` instead of returning an ordinary
status. -/
theorem abort_terminates_on_empty_stack (params : ParameterStack)
    (h : params.size = 0) :
    Abort params = CallOutcome.aborted "Aborting enclave" := by
  simp [Abort, stackNotEmptyGuardFails, h, BestEffortAbort]

/-- Witness for the amended C5 at the empty stack. -/
theorem abort_terminates_on_empty_stack_witness :
    Abort ParameterStack.emptyStack = CallOutcome.aborted "Aborting enclave" :=
  abort_terminates_on_empty_stack ParameterStack.emptyStack rfl

/-- C6: popping more entries than the stack holds fails with `Underflow`
rather than reading outside the stack backing storage, and `TestOpen`
invoked with an argument count other than 2 or 3 returns `InvalidArgument`
with the stack untouched (no pop past the stack end). -/
theorem handler_pop_safety :
    (∀ (s : ParameterStack) (n : Nat), s.size < n →
        s.PopN n = Except.error StackError.underflow) ∧
    (∀ (open3 : Bytes → Bytes → Bytes → Bytes)
        (open2 : Bytes → Bytes → Bytes) (params : ParameterStack),
        params.size ≠ 2 → params.size ≠ 3 →
        TestOpen open3 open2 params
          = Except.ok (invalidArgumentStatus
              "Unexpected number of arguments. open() expects 2 or 3 arguments.",
            params)) := by
  constructor
  · exact popN_underflow_of_short
  · intro open3 open2 params h2 h3
    simp [TestOpen, h2, h3]

/-- Witness for C6: a one-entry stack underflows on a double pop, and
`TestOpen` on a one-entry stack reports `InvalidArgument` unchanged. -/
theorem handler_pop_safety_witness :
    ParameterStack.PopN ⟨[[9]]⟩ 2 = Except.error StackError.underflow ∧
    TestOpen (fun p f m => p ++ f ++ m) (fun p f => p ++ f) ⟨[[9]]⟩
      = Except.ok (invalidArgumentStatus
          "Unexpected number of arguments. open() expects 2 or 3 arguments.",
        ⟨[[9]]⟩) :=
  ⟨handler_pop_safety.1 ⟨[[9]]⟩ 2 (by decide),
   handler_pop_safety.2 (fun p f m => p ++ f ++ m) (fun p f => p ++ f)
     ⟨[[9]]⟩ (by decide) (by decide)⟩

/-- C7: whenever a handler invocation returns success, the stack depth upon
return equals exactly the number of result values the handler declares:
1 for `TestAccess` (one `int`), 1 for `TestOpen` (one `int`), and 2 for
`TestRead` (the `ssize_t` result plus the data entry). -/
theorem call_result_stack_depth :
    (∀ (access : Bytes → Bytes → Bytes) (params params1 : ParameterStack)
        (st : PrimitiveStatus),
        TestAccess access params = Except.ok (st, params1) →
        st.code = ErrorCode.ok → params1.size = 1) ∧
    (∀ (open3 : Bytes → Bytes → Bytes → Bytes)
        (open2 : Bytes → Bytes → Bytes) (params params1 : ParameterStack)
        (st : PrimitiveStatus),
        TestOpen open3 open2 params = Except.ok (st, params1) →
        st.code = ErrorCode.ok → params1.size = 1) ∧
    (∀ (hostData : Bytes) (params params1 : ParameterStack)
        (st : PrimitiveStatus) (writeLog : List Nat),
        TestRead hostData params = Except.ok (st, params1, writeLog) →
        st.code = ErrorCode.ok → params1.size = 2) := by
  refine ⟨?_, ?_, ?_⟩
  · intro access params params1 st h hok
    rcases params with ⟨(_ | ⟨a, (_ | ⟨b, (_ | ⟨c, rest⟩)⟩)⟩)⟩ <;>
      simp [TestAccess, incorrectArguments, ParameterStack.size,
        ParameterStack.PopTyped, ParameterStack.Pop,
        ParameterStack.PushByCopy] at h
    case mk.nil | mk.cons.nil | mk.cons.cons.cons =>
      rcases h with ⟨hst, _⟩
      rw [← hst] at hok
      simp [incorrectArgumentsStatus, invalidArgumentStatus] at hok
    case mk.cons.cons.nil =>
      by_cases ha : a.length = sizeofInt <;> simp [ha] at h
      rcases h with ⟨hst, hp⟩
      rw [← hp]
      rfl
  · intro open3 open2 params params1 st h hok
    rcases params with ⟨(_ | ⟨a, (_ | ⟨b, (_ | ⟨c, (_ | ⟨d, rest⟩)⟩)⟩)⟩)⟩ <;>
      simp [TestOpen, ParameterStack.size, ParameterStack.PopTyped,
        ParameterStack.Pop, ParameterStack.PushByCopy] at h
    case mk.nil | mk.cons.nil | mk.cons.cons.cons.cons =>
      rcases h with ⟨hst, _⟩
      rw [← hst] at hok
      simp [invalidArgumentStatus] at hok
    case mk.cons.cons.nil =>
      by_cases ha : a.length = sizeofInt <;> simp [ha] at h
      rcases h with ⟨hst, hp⟩
      rw [← hp]
      rfl
    case mk.cons.cons.cons.nil =>
      by_cases ha : a.length = sizeofModeT <;> simp [ha] at h
      by_cases hb : b.length = sizeofInt <;> simp [hb] at h
      rcases h with ⟨hst, hp⟩
      rw [← hp]
      rfl
  · intro hostData params params1 st writeLog h hok
    rcases params with ⟨(_ | ⟨a, (_ | ⟨b, (_ | ⟨c, rest⟩)⟩)⟩)⟩ <;>
      simp [TestRead, incorrectArguments, ParameterStack.size,
        ParameterStack.PopTyped, ParameterStack.Pop,
        ParameterStack.PushByCopy] at h
    case mk.nil | mk.cons.nil | mk.cons.cons.cons =>
      rcases h with ⟨hst, _⟩
      rw [← hst] at hok
      simp [incorrectArgumentsStatus, invalidArgumentStatus] at hok
    case mk.cons.cons.nil =>
      by_cases ha : a.length = sizeofSizeT <;> simp [ha] at h
      by_cases hb : b.length = sizeofInt <;> simp [hb] at h
      rcases h with ⟨hst, hp, _⟩
      rw [← hp]
      rfl

/-- Witness for C7 on concrete successful calls of all three handlers. -/
theorem call_result_stack_depth_witness :
    (ParameterStack.size
        ⟨[[1, 0, 0, 0]]⟩ = 1) ∧
    (ParameterStack.size ⟨[[2, 0, 0, 0]]⟩ = 1) ∧
    (ParameterStack.size
        ⟨[[104, 105, 0], [2, 0, 0, 0, 0, 0, 0, 0]]⟩ = 2) :=
  ⟨call_result_stack_depth.1 (fun _ _ => [1, 0, 0, 0])
      ⟨[[0, 0, 0, 0], [47]]⟩ ⟨[[1, 0, 0, 0]]⟩ PrimitiveStatus.OkStatus
      rfl rfl,
   call_result_stack_depth.2.1 (fun p _ _ => p) (fun _ _ => [2, 0, 0, 0])
      ⟨[[0, 0, 0, 0], [47]]⟩ ⟨[[2, 0, 0, 0]]⟩ PrimitiveStatus.OkStatus
      rfl rfl,
   call_result_stack_depth.2.2 [104, 105]
      ⟨[encodeLE sizeofSizeT 3, [5, 0, 0, 0]]⟩
      ⟨[[104, 105, 0], [2, 0, 0, 0, 0, 0, 0, 0]]⟩ PrimitiveStatus.OkStatus
      (List.range 2) rfl rfl⟩

/-- C8: for every nonempty range over a nonempty enclave region,
`enc_is_within_enclave(address, size)` returns true exactly when
`[address, address + size)` lies entirely inside the enclave address region
recorded in the `MemoryLayout` snapshot, and
`enc_is_outside_enclave(address, size)` returns true exactly when that range
lies entirely outside it. -/
theorem boundary_validators_correct (m : MemoryLayout) (address size : Nat)
    (hsz : 0 < size) (hm : 0 < m.enclave_size) :
    (enc_is_within_enclave m address size = true ↔
        ∀ x, address ≤ x → x < address + size → m.containsAddr x) ∧
    (enc_is_outside_enclave m address size = true ↔
        ∀ x, address ≤ x → x < address + size → ¬ m.containsAddr x) := by
  constructor
  · simp only [enc_is_within_enclave, Bool.and_eq_true, decide_eq_true_eq]
    constructor
    · intro h x hx1 hx2
      unfold MemoryLayout.containsAddr
      omega
    · intro h
      have h1 := h address le_rfl (by omega)
      have h2 := h (address + size - 1) (by omega) (by omega)
      unfold MemoryLayout.containsAddr at h1 h2
      omega
  · simp only [enc_is_outside_enclave, Bool.or_eq_true, decide_eq_true_eq]
    constructor
    · intro h x hx1 hx2 hc
      unfold MemoryLayout.containsAddr at hc
      omega
    · intro h
      by_contra hcon
      push_neg at hcon
      obtain ⟨h1, h2⟩ := hcon
      rcases le_total address m.enclave_base with hle | hle
      · have := h m.enclave_base hle (by omega)
        unfold MemoryLayout.containsAddr at this
        omega
      · have := h address le_rfl (by omega)
        unfold MemoryLayout.containsAddr at this
        omega

/-- Witness for C8 on the layout with base 100 and size 50 and the range
`[110, 120)`. -/
theorem boundary_validators_correct_witness :
    (enc_is_within_enclave ⟨100, 50⟩ 110 10 = true ↔
        ∀ x, 110 ≤ x → x < 110 + 10 → MemoryLayout.containsAddr ⟨100, 50⟩ x) ∧
    (enc_is_outside_enclave ⟨100, 50⟩ 110 10 = true ↔
        ∀ x, 110 ≤ x → x < 110 + 10 → ¬ MemoryLayout.containsAddr ⟨100, 50⟩ x) :=
  boundary_validators_correct ⟨100, 50⟩ 110 10 (by decide) (by decide)

/-- C9: `IOContextNative::Writev` and `IOContextNative::Readv` called with
`iovcnt <= 0` return `-1` with `errno` set to `EINVAL`, issuing no host call
and allocating no untrusted buffer (the event trace is empty). -/
theorem writev_readv_einval_on_nonpositive_iovcnt
    (malloc : Nat → Option Bytes) (writevHost : Bytes → Nat → Int)
    (readvHost : List Iovec → Nat → Int) (iov : List Iovec) (iovcnt : Int)
    (h : iovcnt ≤ 0) :
    Writev malloc writevHost iov iovcnt = ⟨-1, some EINVAL, []⟩ ∧
    Readv malloc readvHost iov iovcnt = ⟨-1, some EINVAL, []⟩ := by
  constructor
  · simp [Writev, h]
  · simp [Readv, h]

/-- Witness for C9 at `iovcnt = 0` and at `iovcnt = -3`. -/
theorem writev_readv_einval_witness :
    Writev (fun n => some (List.replicate n 0)) (fun _ _ => 7)
        [⟨1, [42]⟩] 0 = ⟨-1, some EINVAL, []⟩ ∧
    Readv (fun n => some (List.replicate n 0)) (fun _ _ => 7)
        [⟨1, [42]⟩] (-3) = ⟨-1, some EINVAL, []⟩ :=
  ⟨(writev_readv_einval_on_nonpositive_iovcnt (fun n => some (List.replicate n 0))
      (fun _ _ => 7) (fun _ _ => 7) [⟨1, [42]⟩] 0 (by decide)).1,
   (writev_readv_einval_on_nonpositive_iovcnt (fun n => some (List.replicate n 0))
      (fun _ _ => 7) (fun _ _ => 7) [⟨1, [42]⟩] (-3) (by decide)).2⟩

/-- C10 evaluation at the failing input: `TestRead` invoked with the
caller-supplied count 27 — exactly what the repository's own
`HostCallTest.TestRead` supplies (a 26-character string plus NUL) — lets the
host read write 27 bytes into the 20-byte `read_buf`: the write log contains
buffer index `readBufLen = 20`, which is outside the buffer bounds
`0..19`. -/
theorem testRead_count27_out_of_bounds_write :
    TestRead (List.replicate 27 116)
        ((ParameterStack.emptyStack.PushByCopy [5, 0, 0, 0]).PushByCopy
          (encodeLE sizeofSizeT 27))
      = Except.ok (PrimitiveStatus.OkStatus,
          ⟨[List.replicate 27 116 ++ [0], encodeLE sizeofSsizeT 27]⟩,
          List.range 27) ∧
    readBufLen ∈ List.range 27 :=
  ⟨rfl, by decide⟩

end Asylo
